import Mathlib

/-!
Shallow embedding of the calculator in `src/interp/src/main.rs`:
a lexer (`lex`), a shunting-yard parser (`parse`) and a recursive
evaluator (`evaluate`), together with theorems settling the claims
about the pipeline.

Modelling conventions:
* Rust `i32` values are carried as `Int`; where the source performs
  native arithmetic we wrap the mathematical result into the
  two's-complement range with `wrap32` (release-build wrapping
  semantics); division/remainder overflow (`i32::MIN / -1`,
  `i32::MIN % -1`) panics in Rust in every build mode and is modelled
  as a panic.
* A Rust panic (a failing `unwrap` on `None`/`Err`, or arithmetic the
  language defines to abort) is modelled by the value `none` of an
  `Option` result; an early `return Err(e)` is `some (Except.error e)`.
* The Rust `Vec` operator stack is a `List Token` whose head is the
  top of the stack; the `LinkedList` operand queue is a `List Expr`
  whose head is the front (`push_front` is cons, `push_back` appends
  at the tail), exactly mirroring the source's mixed front/back use.
-/

inductive Associativity
  | LEFT
  | RIGHT
deriving DecidableEq

inductive SynError
  | UnknownSymbol (s : String)
  | MismatchedParentheses
  | GeneralError
deriving DecidableEq

inductive Token
  | LexicalError (s : String)
  | LexicalNumber (n : Int)
  | POW
  | PLUS
  | MINUS
  | TIMES
  | DIVIDE
  | MODULO
  | LPAREN
  | RPAREN
deriving DecidableEq

inductive Expr
  | Number (n : Int)
  | Plus (l r : Expr)
  | Minus (l r : Expr)
  | Times (l r : Expr)
  | Divide (l r : Expr)
  | Modulo (l r : Expr)
  | Pow (l r : Expr)
deriving DecidableEq

/-- Whitespace recognized when modelling Rust `str::trim` (the inputs
of interest contain only ASCII whitespace). -/
def isWsChar (c : Char) : Bool :=
  c = ' ' ∨ c = '\t' ∨ c = '\n' ∨ c = '\r'

/-- Rust `str::trim` on the character list of a line. -/
def trimChars (cs : List Char) : List Char :=
  ((cs.dropWhile isWsChar).reverse.dropWhile isWsChar).reverse

/-- Rust `str::split(" ")`: split on every single space, keeping empty
chunks. -/
def splitSpaces : List Char → List (List Char)
  | [] => [[]]
  | c :: rest =>
    let r := splitSpaces rest
    if c = ' ' then [] :: r
    else
      match r with
      | chunk :: chunks => (c :: chunk) :: chunks
      | [] => [[c]]

/-- Rust `<i32 as FromStr>::from_str`: an optional sign, then one or
more ASCII digits, with the value required to fit in the `i32` range. -/
def parseI32 (s : String) : Option Int :=
  let cs := s.data
  let signDigits : Int × List Char :=
    match cs with
    | '+' :: rest => (1, rest)
    | '-' :: rest => (-1, rest)
    | _ => (1, cs)
  let sign := signDigits.1
  let digits := signDigits.2
  if digits = [] ∨ ¬ digits.all Char.isDigit then none
  else
    let v : Int :=
      sign * (digits.foldl (fun acc c => acc * 10 + (c.toNat - '0'.toNat)) 0)
    if -(2 ^ 31) ≤ v ∧ v ≤ 2 ^ 31 - 1 then some v else none

/-- The per-lexeme `match` in `lex`. -/
def classify (lexeme : String) : Token :=
  if lexeme = "^" then Token.POW
  else if lexeme = "+" then Token.PLUS
  else if lexeme = "-" then Token.MINUS
  else if lexeme = "*" then Token.TIMES
  else if lexeme = "/" then Token.DIVIDE
  else if lexeme = "%" then Token.MODULO
  else if lexeme = "(" then Token.LPAREN
  else if lexeme = ")" then Token.RPAREN
  else
    match parseI32 lexeme with
    | some num => Token.LexicalNumber num
    | none => Token.LexicalError lexeme

/-- The whitespace-separated chunks of a line: `line.trim().split(" ")`. -/
def chunksOf (line : String) : List String :=
  (splitSpaces (trimChars line.data)).map String.mk

/-- `lex`: `line.trim().split(" ")`, one token pushed per chunk. -/
def lex (line : String) : List Token :=
  (chunksOf line).map classify

/-- The operator-precedence table built at the top of `parse`,
including its `LPAREN` and `RPAREN` entries. -/
def op_table : Token → Option (Nat × Associativity)
  | Token.POW => some (4, Associativity.RIGHT)
  | Token.TIMES => some (3, Associativity.LEFT)
  | Token.DIVIDE => some (3, Associativity.LEFT)
  | Token.PLUS => some (2, Associativity.LEFT)
  | Token.MINUS => some (2, Associativity.LEFT)
  | Token.MODULO => some (1, Associativity.LEFT)
  | Token.LPAREN => some (9, Associativity.LEFT)
  | Token.RPAREN => some (0, Associativity.LEFT)
  | _ => none

/-- `construct_expr`. -/
def construct_expr : Option Token → Expr → Expr → Except SynError Expr
  | some Token.POW, l, r => Except.ok (Expr.Pow l r)
  | some Token.DIVIDE, l, r => Except.ok (Expr.Divide l r)
  | some Token.TIMES, l, r => Except.ok (Expr.Times l r)
  | some Token.PLUS, l, r => Except.ok (Expr.Plus l r)
  | some Token.MINUS, l, r => Except.ok (Expr.Minus l r)
  | some Token.MODULO, l, r => Except.ok (Expr.Modulo l r)
  | some (Token.LexicalError e), _, _ => Except.error (SynError.UnknownSymbol e)
  | _, _, _ => Except.error SynError.GeneralError

/-- The parser state: operator stack (head = top) and operand queue
(head = front). -/
abbrev ParseState := List Token × List Expr

/-- The `RPAREN` arm's `while *operator_stack.last().unwrap() != LPAREN`
loop, followed by popping the matching `LPAREN`.  An empty stack makes
`last().unwrap()` panic (`none`); a missing operand makes
`pop_front().unwrap()` panic. -/
def rparenLoop : List Token → List Expr → Option (Except SynError ParseState)
  | [], _ => none
  | Token.LPAREN :: rest, q => some (Except.ok (rest, q))
  | t :: rest, q =>
    match q with
    | l_op :: r_op :: qrest =>
      match construct_expr (some t) l_op r_op with
      | Except.ok expr => rparenLoop rest (qrest ++ [expr])
      | Except.error e => some (Except.error e)
    | _ => none

/-- The catch-all operator arm's inner `loop`: pop `op2`, compare
precedences, and either reduce (note the source pops the stack a
second time for the operator handed to `construct_expr`) or push
`op2` back and stop.  Popping an empty stack or operand queue panics. -/
def opLoop (operator : Token) : List Token → List Expr → Option (Except SynError ParseState)
  | [], _ => none
  | op2 :: rest, q =>
    match op_table operator, op_table op2 with
    | some (p1, a1), some (p2, _) =>
      if (p1 < p2 ∧ a1 = Associativity.RIGHT) ∨ (p1 ≤ p2 ∧ a1 = Associativity.LEFT) then
        match q with
        | l_op :: r_op :: qrest =>
          match rest with
          | [] =>
            match construct_expr none l_op r_op with
            | Except.ok expr => some (Except.ok (([], qrest ++ [expr])))
            | Except.error e => some (Except.error e)
          | op2_pop :: rest2 =>
            match construct_expr (some op2_pop) l_op r_op with
            | Except.ok expr => opLoop operator rest2 (qrest ++ [expr])
            | Except.error e => some (Except.error e)
        | _ => none
      else
        some (Except.ok (op2 :: rest, q))
    | _, _ => none

/-- The catch-all operator arm of the token `match`: push directly when
the stack is empty or topped by `LPAREN`, otherwise run the reduce
loop and then push the incoming operator. -/
def processOperator (operator : Token) (stack : List Token) (q : List Expr) :
    Option (Except SynError ParseState) :=
  match stack with
  | [] => some (Except.ok ([operator], q))
  | top :: _ =>
    if top = Token.LPAREN then some (Except.ok (operator :: stack, q))
    else
      match opLoop operator stack q with
      | some (Except.ok (stack2, q2)) => some (Except.ok (operator :: stack2, q2))
      | other => other

/-- One iteration of `for token in tokens`. -/
def processToken (st : ParseState) (t : Token) : Option (Except SynError ParseState) :=
  match t with
  | Token.LexicalError e => some (Except.error (SynError.UnknownSymbol e))
  | Token.LexicalNumber n => some (Except.ok (st.1, Expr.Number n :: st.2))
  | Token.LPAREN => some (Except.ok (Token.LPAREN :: st.1, st.2))
  | Token.RPAREN => rparenLoop st.1 st.2
  | operator => processOperator operator st.1 st.2

/-- The whole `for token in tokens` loop. -/
def processTokens : List Token → ParseState → Option (Except SynError ParseState)
  | [], st => some (Except.ok st)
  | t :: ts, st =>
    match processToken st t with
    | some (Except.ok st2) => processTokens ts st2
    | some (Except.error e) => some (Except.error e)
    | none => none

/-- The `while operator_stack.len() > 0` drain after all tokens are
consumed, then the final single-operand check. -/
def finalLoop : List Token → List Expr → Except SynError Expr
  | [], q =>
    match q with
    | [e] => Except.ok e
    | _ => Except.error SynError.GeneralError
  | t :: rest, q =>
    match t with
    | Token.LPAREN => Except.error SynError.MismatchedParentheses
    | Token.RPAREN => Except.error SynError.MismatchedParentheses
    | Token.LexicalError e => Except.error (SynError.UnknownSymbol e)
    | operator =>
      match q with
      | l_op :: r_op :: qrest =>
        match construct_expr (some operator) l_op r_op with
        | Except.ok expr => finalLoop rest (qrest ++ [expr])
        | Except.error e => Except.error e
      | _ => Except.error SynError.GeneralError

/-- `parse`: `none` is a panic, `some (Except.error e)` an `Err(e)`. -/
def parse (tokens : List Token) : Option (Except SynError Expr) :=
  match processTokens tokens ([], []) with
  | none => none
  | some (Except.error e) => some (Except.error e)
  | some (Except.ok st) => some (finalLoop st.1 st.2)

/-- Two's-complement wrap of an integer into the `i32` range. -/
def wrap32 (n : Int) : Int :=
  Int.emod (n + 2 ^ 31) (2 ^ 32) - 2 ^ 31

/-- Rust `as u32` applied to an `i32` value: reinterpret modulo 2^32. -/
def toU32 (n : Int) : Nat :=
  (Int.emod n (2 ^ 32)).toNat

/-- `evaluate`.  Children's results are `unwrap`ped, so a child's `Err`
(or panic) makes the parent panic (`none`).  `Divide`/`Modulo`
evaluate the right child first and check it against zero; `i32::MIN`
divided (or remaindered) by `-1` is an overflow panic in Rust. -/
def evaluate : Expr → Option (Except String Int)
  | Expr.Number n => some (Except.ok n)
  | Expr.Pow l r =>
    match evaluate l with
    | some (Except.ok lv) =>
      match evaluate r with
      | some (Except.ok rv) => some (Except.ok (wrap32 (lv ^ toU32 rv)))
      | _ => none
    | _ => none
  | Expr.Plus l r =>
    match evaluate l with
    | some (Except.ok lv) =>
      match evaluate r with
      | some (Except.ok rv) => some (Except.ok (wrap32 (lv + rv)))
      | _ => none
    | _ => none
  | Expr.Minus l r =>
    match evaluate l with
    | some (Except.ok lv) =>
      match evaluate r with
      | some (Except.ok rv) => some (Except.ok (wrap32 (lv - rv)))
      | _ => none
    | _ => none
  | Expr.Times l r =>
    match evaluate l with
    | some (Except.ok lv) =>
      match evaluate r with
      | some (Except.ok rv) => some (Except.ok (wrap32 (lv * rv)))
      | _ => none
    | _ => none
  | Expr.Divide l r =>
    match evaluate r with
    | some (Except.ok rv) =>
      if rv = 0 then some (Except.error "Division by zero!")
      else
        match evaluate l with
        | some (Except.ok lv) =>
          if lv = -(2 ^ 31) ∧ rv = -1 then none
          else some (Except.ok (Int.tdiv lv rv))
        | _ => none
    | _ => none
  | Expr.Modulo l r =>
    match evaluate r with
    | some (Except.ok rv) =>
      if rv = 0 then some (Except.error "Division by zero!")
      else
        match evaluate l with
        | some (Except.ok lv) =>
          if lv = -(2 ^ 31) ∧ rv = -1 then none
          else some (Except.ok (Int.tmod lv rv))
        | _ => none
    | _ => none

/-- Outcome of running one input line through lex, parse and evaluate,
as the REPL body does. -/
inductive RunResult
  | value (n : Int)
  | evalErr (msg : String)
  | synErr (e : SynError)
  | panicked
deriving DecidableEq

/-- The per-line pipeline `evaluate(parse(lex(line)))`. -/
def run (line : String) : RunResult :=
  match parse (lex line) with
  | none => RunResult.panicked
  | some (Except.error e) => RunResult.synErr e
  | some (Except.ok expr) =>
    match evaluate expr with
    | none => RunResult.panicked
    | some (Except.error msg) => RunResult.evalErr msg
    | some (Except.ok n) => RunResult.value n

deriving instance DecidableEq for Except

/-- Claim C1 (code_bug evidence): on the input line `8 - 3 - 2` the
pipeline does not yield 3 as claimed; the reduce loop of the operator
arm pops the operator stack a second time for the operator handed to
`construct_expr`, the second pop returns `None`, and `parse` returns
`GeneralError`. -/
theorem interp_left_assoc_chain_general_error :
    run "8 - 3 - 2" = RunResult.synErr SynError.GeneralError := by decide

/-- Claim C2 (code_bug evidence): on the input line `2 ^ 3 ^ 2` the
pipeline yields 256, not the claimed 512: the parser pushes operands
and pops both reduction operands at the front of its operand queue, so
the end-of-input drain builds `Pow (Number 2) (Pow (Number 2) (Number 3))`,
i.e. 2 ^ (2 ^ 3). -/
theorem interp_right_assoc_chain_yields_256 :
    parse (lex "2 ^ 3 ^ 2")
      = some (Except.ok (Expr.Pow (Expr.Number 2)
          (Expr.Pow (Expr.Number 2) (Expr.Number 3)))) ∧
    run "2 ^ 3 ^ 2" = RunResult.value 256 := by decide

/-- Claim C3 (code_bug evidence): on `1 / 0` and `1 % 0` the pipeline
does not fail with DivisionByZero; the swapped operand order makes the
parser build `Divide (Number 0) (Number 1)` (resp. `Modulo`), whose
right operand is 1, so evaluation succeeds with 0. -/
theorem interp_div_mod_zero_yield_zero :
    parse (lex "1 / 0")
      = some (Except.ok (Expr.Divide (Expr.Number 0) (Expr.Number 1))) ∧
    run "1 / 0" = RunResult.value 0 ∧
    run "1 % 0" = RunResult.value 0 := by decide

/-- Claim C4 (code_bug evidence): an unbalanced closing parenthesis is
not reported as MismatchedParentheses; when the operator stack empties
while an `RPAREN` is processed, `operator_stack.last().unwrap()` in the
loop condition panics (the `len() == 0` check inside the body is dead),
and on `1 + )` the operand pops panic first.  Both `)` and `1 + )`
crash the process. -/
theorem interp_rparen_unbalanced_panics :
    (∀ q : List Expr, rparenLoop [] q = none) ∧
    run ")" = RunResult.panicked ∧
    run "1 + )" = RunResult.panicked :=
  ⟨fun _ => rfl, by decide, by decide⟩

/-- Claim C5 (code_bug evidence): `evaluate` calls `.unwrap()` on each
child's result, so a child's `Err` (here `Divide (Number 1) (Number 0)`,
which itself fails cleanly with the division-by-zero error) makes the
enclosing `Plus` panic instead of returning the error as a value. -/
theorem evaluate_unwraps_child_error :
    evaluate (Expr.Divide (Expr.Number 1) (Expr.Number 0))
      = some (Except.error "Division by zero!") ∧
    evaluate (Expr.Plus (Expr.Divide (Expr.Number 1) (Expr.Number 0))
        (Expr.Number 1)) = none := by decide

/-- Claim C6 (code_bug evidence): the empty token sequence and `1 2`
do yield GeneralError, but a reduction attempted mid-stream with fewer
than two operands is not caught: on `1 + + 2` the reduce loop pops the
operand queue with `.unwrap()` and no arity check, and panics. -/
theorem parse_malformed_streams :
    parse [] = some (Except.error SynError.GeneralError) ∧
    run "1 2" = RunResult.synErr SynError.GeneralError ∧
    run "1 + + 2" = RunResult.panicked := by decide

/-- Claim C7 (confirmed): precedence is respected on `2 + 3 * 4`: the
pipeline yields 14, not 20. -/
theorem interp_precedence_two_plus_three_times_four :
    run "2 + 3 * 4" = RunResult.value 14 := by decide

/-- Claim C8 (code_bug evidence): the precedence table consulted by the
reduce loop is not restricted to the six real operators; it also maps
`LPAREN` to precedence 9 and `RPAREN` to precedence 0. -/
theorem op_table_contains_parens :
    op_table Token.LPAREN = some (9, Associativity.LEFT) ∧
    op_table Token.RPAREN = some (0, Associativity.LEFT) := by decide

/-- Claim C9 (code_bug evidence): the lexer is total — one token per
chunk of `line.trim().split(" ")` — and `1 @ 2` does fail with
`UnknownSymbol "@"`; but the parser does not always fail with
UnknownSymbol on the first unclassifiable chunk: on `8 - 3 - @` the
double-pop bug returns GeneralError before the `@` token is reached. -/
theorem lex_total_but_first_unknown_masked :
    (∀ line : String, (lex line).length = (chunksOf line).length) ∧
    run "1 @ 2" = RunResult.synErr (SynError.UnknownSymbol "@") ∧
    run "8 - 3 - @" = RunResult.synErr SynError.GeneralError :=
  ⟨fun line => by simp [lex], by decide, by decide⟩

/-- Claim C10 (confirmed): when the right operand of `Pow` evaluates to
a negative value `rv`, the evaluator neither fails nor defines the
result as 0: `rv as u32` reinterprets it two's-complement as
`rv mod 2 ^ 32`, and the left value is raised to that exponent (with
`i32` wrapping of the product). -/
theorem evaluate_pow_negative_exponent (l r : Expr) (lv rv : Int)
    (hl : evaluate l = some (Except.ok lv))
    (hr : evaluate r = some (Except.ok rv))
    (_hneg : rv < 0) :
    evaluate (Expr.Pow l r)
      = some (Except.ok (wrap32 (lv ^ (Int.emod rv (2 ^ 32)).toNat))) := by
  simp [evaluate, hl, hr, toU32]

/-- Witness for C10 at `Pow (Number 1) (Number (-1))`. -/
theorem evaluate_pow_negative_exponent_witness :
    evaluate (Expr.Pow (Expr.Number 1) (Expr.Number (-1)))
      = some (Except.ok (wrap32 ((1 : Int) ^ (Int.emod (-1) (2 ^ 32)).toNat))) :=
  evaluate_pow_negative_exponent (Expr.Number 1) (Expr.Number (-1)) 1 (-1)
    rfl rfl (by decide)
